import Mathlib

/-!
Verification development for the Better-Tasks server core: the
authorization middleware, the task/customer/notification mutation
pipeline with its side-effect dispatch, the cross-entity search scoping,
and the scheduled reminder job.  Every definition is a shallow embedding
of the corresponding TypeScript source; identifiers are stored as
natural numbers, timestamps as integer epoch values, and persistence is
explicit list-valued state.  Infrastructure write failures are injected
through explicit boolean parameters.
-/

namespace BetterTasks

/-- A JavaScript value that can occur in the rest-parameter list of the
`authorize` middleware factory.  Call sites pass role strings, but the
tasks router passes a single array argument; under SameValueZero
equality (the semantics of `Array.prototype.includes`) a string is never
equal to an array. -/
inductive JsVal where
  | str : String → JsVal
  | strArr : List String → JsVal
deriving DecidableEq, Repr

/-- A principal as attached to the request by the authenticate
middleware (the `IUser` document with the password hash stripped). -/
structure Principal where
  id : Nat
  name : String
  role : String
  isActive : Bool
deriving DecidableEq, Repr

/-- Outcome of an authorization middleware invocation. -/
inductive AuthzResult where
  | unauthenticated
  | forbidden
  | next
deriving DecidableEq, Repr

/-- The `authorize(...roles)` middleware factory (middleware/auth.ts
33-47): 401 when no user is attached, 403 when
`roles.includes(req.user.role)` is false, otherwise `next()`. -/
def authorize (roles : List JsVal) (user : Option Principal) : AuthzResult :=
  match user with
  | none => AuthzResult.unauthenticated
  | some u =>
    if JsVal.str u.role ∈ roles then AuthzResult.next else AuthzResult.forbidden

/-- The argument list the tasks router passes to the factory on
createTask, updateTask and deleteTask: `authorize(['admin', 'manager'])`.
The rest parameter binds `roles` to a one-element list whose single
element is the array itself. -/
def tasksMutationRoles : List JsVal := [JsVal.strArr ["admin", "manager"]]

/-- The argument list the customers router passes on update and delete:
`authorize('admin', 'manager')` — two separate string arguments. -/
def customersWriteRoles : List JsVal := [JsVal.str "admin", JsVal.str "manager"]

/-- Guard of POST /api/customers: the route registers no `authorize`
middleware, so after `authenticate` any attached principal proceeds to
the handler. -/
def createCustomerGuard (user : Option Principal) : AuthzResult :=
  match user with
  | none => AuthzResult.unauthenticated
  | some _ => AuthzResult.next

/-- Guard of PUT /api/customers/:id. -/
def updateCustomerGuard (user : Option Principal) : AuthzResult :=
  authorize customersWriteRoles user

/-- Guard of DELETE /api/customers/:id. -/
def deleteCustomerGuard (user : Option Principal) : AuthzResult :=
  authorize customersWriteRoles user

/-- A comment subdocument of a task (models the `comments` entry of
models/Task.ts). -/
structure Comment where
  text : String
  author : Nat
  createdAt : Nat
deriving DecidableEq, Repr

/-- A task document (models/Task.ts).  Attachments are omitted: no claim
under verification touches them. -/
structure Task where
  id : Nat
  title : String
  description : String
  category : String
  priority : String
  status : String
  dueDate : Nat
  assignedTo : Nat
  customer : Option Nat
  comments : List Comment
  createdBy : Nat
deriving DecidableEq, Repr

/-- A customer contact subdocument (models/Customer.ts). -/
structure Contact where
  name : String
  email : String
  phone : String
  designation : String
  isPrimary : Bool
deriving DecidableEq, Repr

/-- A customer document (models/Customer.ts). -/
structure Customer where
  id : Nat
  companyName : String
  companyType : String
  contacts : List Contact
  notes : String
  isActive : Bool
  createdBy : Nat
deriving DecidableEq, Repr

/-- A call document (models/Call.ts), the fields search relies on. -/
structure Call where
  id : Nat
  customer : Nat
  user : Nat
  callType : String
  summary : String
deriving DecidableEq, Repr

/-- A notification document (models/Notification.ts). -/
structure Notification where
  user : Nat
  type : String
  message : String
  link : String
  isRead : Bool
  relatedModel : String
  relatedId : Nat
deriving DecidableEq, Repr

/-- An activity-log document (models/Activity.ts, as used by
utils/activityLogger.ts). -/
structure Activity where
  user : Nat
  action : String
  entity : String
  entityId : Nat
deriving DecidableEq, Repr

/-- The persistent store the task routes read and write. -/
structure Store where
  tasks : List Task
  notifications : List Notification
  activities : List Activity
deriving DecidableEq, Repr

/-- The `type` enum of the Notification schema (models/Notification.ts
109-113).  Note it omits `TASK_REMINDER`, which the TypeScript
`NotificationType` union does include. -/
def notificationTypeEnum : List String :=
  ["NEW_TASK", "TASK_UPDATED", "COMMENT_ADDED", "TASK_DUE", "CALL_LOGGED"]

/-- The `related.model` enum of the Notification schema. -/
def relatedModelEnum : List String := ["Task", "Call", "Customer"]

/-- Mongoose document validation run by `notification.save()`: the
enum-constrained paths must hold one of their allowed values.  (Required
and maxlength constraints are not decision-relevant for the claims and
are omitted.) -/
def notificationValid (n : Notification) : Bool :=
  decide (n.type ∈ notificationTypeEnum) && decide (n.relatedModel ∈ relatedModelEnum)

/-- `createNotification` (utils/notifications.ts 15-24): constructs the
document and awaits `save()`; any failure — schema validation or the
injected infrastructure failure `dbFails` — is caught, logged, and
rethrown as `Failed to create notification`, so the error propagates to
the awaiting caller. -/
def createNotification (dbFails : Bool) (n : Notification)
    (store : List Notification) : Except String (List Notification) :=
  if notificationValid n && !dbFails then Except.ok (store ++ [n])
  else Except.error "Failed to create notification"

/-- `logActivity` (utils/activityLogger.ts 16-28): fire-and-forget; the
save runs detached and its failure is caught and logged inside the
helper, never propagating to the route. -/
def logActivity (dbFails : Bool) (a : Activity) (store : List Activity) :
    List Activity :=
  if dbFails then store else store ++ [a]

/-- `canAccessTask(user, task)` (middleware/auth.ts 63-76) on its
intended argument types: admin and manager always pass; otherwise the
principal must be the creator or the assignee. -/
def canAccessTask (u : Principal) (t : Task) : Bool :=
  if u.role = "admin" ∨ u.role = "manager" then true
  else decide (t.createdBy = u.id ∨ t.assignedTo = u.id)

/-- The pre-save hook branch `this.contacts[0].isPrimary = true`
(models/Customer.ts 157): taken when no submitted contact is primary. -/
def setFirstPrimary : List Contact → List Contact
  | [] => []
  | c :: rest => { c with isPrimary := true } :: rest

/-- The pre-save hook branch for multiple primaries (models/Customer.ts
160-164): `forEach((contact, index) => if (index > 0 && contact.isPrimary)
contact.isPrimary = false)`.  The head keeps whatever flag it had; every
later contact loses its primary flag. -/
def clearPrimariesAfterHead : List Contact → List Contact
  | [] => []
  | c :: rest =>
    c :: rest.map (fun d => if d.isPrimary then { d with isPrimary := false } else d)

/-- The `customerSchema.pre('save')` hook (models/Customer.ts 149-168). -/
def preSaveCustomer (c : Customer) : Except String Customer :=
  if c.contacts.length = 0 then Except.error "At least one contact is required"
  else
    let primaryContacts := c.contacts.filter (fun ct => ct.isPrimary)
    if primaryContacts.length = 0 then
      Except.ok { c with contacts := setFirstPrimary c.contacts }
    else if primaryContacts.length > 1 then
      Except.ok { c with contacts := clearPrimariesAfterHead c.contacts }
    else Except.ok c

/-- POST /api/customers persists through `new Customer(...).save()`,
which runs the pre-save hook. -/
def createCustomerSave (c : Customer) : Except String Customer :=
  preSaveCustomer c

/-- PUT /api/customers/:id persists through `findByIdAndUpdate`
(customers router 277-281), which does not run save middleware: a
submitted contact list is stored exactly as sent. -/
def updateCustomerApply (c : Customer) (newContacts : Option (List Contact)) :
    Customer :=
  match newContacts with
  | some cs => { c with contacts := cs }
  | none => c

/-- Number of contacts flagged primary. -/
def countPrimary (cs : List Contact) : Nat :=
  (cs.filter (fun ct => ct.isPrimary)).length

/-- The request body of POST /api/tasks. -/
structure TaskInput where
  title : String
  description : String
  category : String
  priority : String
  dueDate : Nat
  assignedTo : Nat
  customer : Option Nat
deriving DecidableEq, Repr

/-- The express-validator chain on POST /api/tasks (tasks router
139-164): length bounds on title, description and category, and the
priority enum.  The ISO-8601 and ObjectId format checks do not arise
here because dates and identifiers are already integers. -/
def validCreateTaskBody (i : TaskInput) : Bool :=
  decide (1 ≤ i.title.length ∧ i.title.length ≤ 200) &&
  decide (1 ≤ i.description.length ∧ i.description.length ≤ 1000) &&
  decide (1 ≤ i.category.length ∧ i.category.length ≤ 50) &&
  decide (i.priority ∈ ["low", "medium", "high", "urgent"])

/-- The `customer` reference check of the task routes: when present, the
referenced customer must exist and be active. -/
def customerRefOk (customers : List Customer) (oc : Option Nat) : Bool :=
  match oc with
  | none => true
  | some cid =>
    match customers.find? (fun c => c.id = cid) with
    | none => false
    | some c => c.isActive

/-- The task link string used by every task notification. -/
def taskLink (id : Nat) : String := "/tasks/" ++ toString id

/-- The new-task notification message. -/
def newTaskMessage (title creatorName : String) : String :=
  "You have been assigned a new task: \"" ++ title ++ "\" by " ++ creatorName ++ "."

/-- The task document built by POST /api/tasks: status and comments take
their schema defaults; `freshId` is the ObjectId minted for the new
document. -/
def newTaskDoc (freshId : Nat) (actor : Principal) (i : TaskInput) : Task :=
  { id := freshId, title := i.title, description := i.description,
    category := i.category, priority := i.priority, status := "todo",
    dueDate := i.dueDate, assignedTo := i.assignedTo, customer := i.customer,
    comments := [], createdBy := actor.id }

/-- The notification POST /api/tasks sends to the assignee. -/
def newTaskNotifDoc (freshId : Nat) (actor : Principal) (i : TaskInput) :
    Notification :=
  { user := i.assignedTo, type := "NEW_TASK",
    message := newTaskMessage i.title actor.name, link := taskLink freshId,
    isRead := false, relatedModel := "Task", relatedId := freshId }

/-- The activity record POST /api/tasks logs. -/
def createTaskActivity (freshId : Nat) (actor : Principal) : Activity :=
  { user := actor.id, action := "CREATE_TASK", entity := "Task", entityId := freshId }

/-- The POST /api/tasks handler (tasks router 165-229): body validation,
active-reference checks, `task.save()`, then — still awaited inside the
route's try block — the new-task notification when the creator is not
the assignee, then the detached activity log, then the 201 response.  A
throw from `createNotification` lands in the route's catch and produces
a 500 response, after the task has already been persisted. -/
def createTaskRoute (notifDbFails actDbFails : Bool) (users : List Principal)
    (customers : List Customer) (freshId : Nat) (actor : Principal)
    (i : TaskInput) (st : Store) : Nat × Store :=
  if !validCreateTaskBody i then (400, st)
  else
    match users.find? (fun u => u.id = i.assignedTo) with
    | none => (400, st)
    | some au =>
      if !au.isActive then (400, st)
      else if !customerRefOk customers i.customer then (400, st)
      else
        let st1 : Store := { st with tasks := st.tasks ++ [newTaskDoc freshId actor i] }
        if actor.id ≠ i.assignedTo then
          match createNotification notifDbFails (newTaskNotifDoc freshId actor i)
              st1.notifications with
          | Except.error _ => (500, st1)
          | Except.ok ns =>
            (201, { st1 with
                    notifications := ns,
                    activities := logActivity actDbFails
                      (createTaskActivity freshId actor) st1.activities })
        else
          (201, { st1 with
                  activities := logActivity actDbFails
                    (createTaskActivity freshId actor) st1.activities })

/-- The `Set<string>` the comments route builds (tasks router 409-417):
insert the creator unless they authored the comment, then the assignee
unless they authored it, deduplicated. -/
def usersToNotify (createdBy assignedTo authorId : Nat) : List Nat :=
  let s1 := if createdBy ≠ authorId then [createdBy] else []
  if assignedTo ≠ authorId ∧ assignedTo ∉ s1 then s1 ++ [assignedTo] else s1

/-- The comment notification message (the source leaves a trailing
space before the closing quote). -/
def commentMessage (authorName title : String) : String :=
  authorName ++ " commented on the task: \"" ++ title ++ "\" "

/-- The notification the comments route sends to one recipient. -/
def mkCommentNotification (recipient : Nat) (authorName : String) (t : Task) :
    Notification :=
  { user := recipient, type := "COMMENT_ADDED",
    message := commentMessage authorName t.title, link := taskLink t.id,
    isRead := false, relatedModel := "Task", relatedId := t.id }

/-- The awaited notification loop of the comments route: the first
rethrown failure aborts the loop and propagates, keeping whatever was
persisted before it (carried on the error). -/
def commentNotifLoop (dbFails : Bool) (authorName : String) (t : Task) :
    List Nat → List Notification → Except (List Notification) (List Notification)
  | [], store => Except.ok store
  | uid :: rest, store =>
    match createNotification dbFails (mkCommentNotification uid authorName t) store with
    | Except.error _ => Except.error store
    | Except.ok s => commentNotifLoop dbFails authorName t rest s

/-- A task after the comments route pushes the new comment. -/
def withComment (t : Task) (authorId now : Nat) (text : String) : Task :=
  { t with comments := t.comments ++ [{ text := text, author := authorId, createdAt := now }] }

/-- The POST /api/tasks/:id/comments handler (tasks router 372-443):
text validation, task lookup, `canAccessTask`, `task.save()` with the
appended comment, then the awaited notification loop over
`usersToNotify`, then the detached activity log and the 200 response.
A notification throw lands in the catch and yields 500 after the
comment has been persisted. -/
def addCommentRoute (notifDbFails actDbFails : Bool) (now : Nat)
    (author : Principal) (taskId : Nat) (text : String) (st : Store) :
    Nat × Store :=
  if !(decide (1 ≤ text.length) && decide (text.length ≤ 500)) then (400, st)
  else
    match st.tasks.find? (fun t => t.id = taskId) with
    | none => (404, st)
    | some task =>
      if !canAccessTask author task then (403, st)
      else
        let task1 := withComment task author.id now text
        let st1 : Store :=
          { st with tasks := st.tasks.map (fun t => if t.id = taskId then task1 else t) }
        match commentNotifLoop notifDbFails author.name task1
            (usersToNotify task1.createdBy task1.assignedTo author.id)
            st1.notifications with
        | Except.error persisted => (500, { st1 with notifications := persisted })
        | Except.ok ns =>
          (200, { st1 with
                  notifications := ns,
                  activities := logActivity actDbFails
                    { user := author.id, action := "ADD_COMMENT", entity := "Task",
                      entityId := task1.id } st1.activities })

/-- The request body of PUT /api/tasks/:id: every allowed field is
optional; a present field is copied into the `updates` object. -/
structure TaskPatch where
  title : Option String
  description : Option String
  category : Option String
  priority : Option String
  status : Option String
  dueDate : Option Nat
  assignedTo : Option Nat
  customer : Option Nat
deriving DecidableEq, Repr

/-- The express-validator chain on PUT /api/tasks/:id (tasks router
233-268): the same bounds as create, each applied only when the field
is present, plus the status enum. -/
def validUpdateTaskBody (p : TaskPatch) : Bool :=
  (match p.title with
   | some s => decide (1 ≤ s.length ∧ s.length ≤ 200)
   | none => true) &&
  (match p.description with
   | some s => decide (1 ≤ s.length ∧ s.length ≤ 1000)
   | none => true) &&
  (match p.category with
   | some s => decide (1 ≤ s.length ∧ s.length ≤ 50)
   | none => true) &&
  (match p.priority with
   | some s => decide (s ∈ ["low", "medium", "high", "urgent"])
   | none => true) &&
  (match p.status with
   | some s => decide (s ∈ ["todo", "in-progress", "completed"])
   | none => true)

/-- The `assignedTo` reference check of PUT /api/tasks/:id: when the
patch carries a new assignee, that user must exist and be active. -/
def assignedRefOk (users : List Principal) (oa : Option Nat) : Bool :=
  match oa with
  | none => true
  | some a =>
    match users.find? (fun u => u.id = a) with
    | none => false
    | some u => u.isActive

/-- `findByIdAndUpdate(taskId, updates)`: each present patch field
overwrites the stored one. -/
def applyPatch (t : Task) (p : TaskPatch) : Task :=
  { t with
    title := p.title.getD t.title,
    description := p.description.getD t.description,
    category := p.category.getD t.category,
    priority := p.priority.getD t.priority,
    status := p.status.getD t.status,
    dueDate := p.dueDate.getD t.dueDate,
    assignedTo := p.assignedTo.getD t.assignedTo,
    customer := match p.customer with
      | some c => some c
      | none => t.customer }

/-- `Object.keys(updates)`: the names of the present patch fields, in
the order of `allowedFields`. -/
def patchKeys (p : TaskPatch) : List String :=
  (if p.title.isSome then ["title"] else []) ++
  (if p.description.isSome then ["description"] else []) ++
  (if p.category.isSome then ["category"] else []) ++
  (if p.priority.isSome then ["priority"] else []) ++
  (if p.status.isSome then ["status"] else []) ++
  (if p.dueDate.isSome then ["dueDate"] else []) ++
  (if p.assignedTo.isSome then ["assignedTo"] else []) ++
  (if p.customer.isSome then ["customer"] else [])

/-- The `changedFields` list of the update-notification branch (tasks
router 326-329): status, priority and due date, each when present in
the patch and different from the stored value. -/
def updateChangedFields (old : Task) (p : TaskPatch) : List String :=
  (match p.status with
   | some s => if old.status ≠ s then ["status to \"" ++ s ++ "\""] else []
   | none => []) ++
  (match p.priority with
   | some s => if old.priority ≠ s then ["priority to \"" ++ s ++ "\""] else []
   | none => []) ++
  (match p.dueDate with
   | some d => if old.dueDate ≠ d then ["due date"] else []
   | none => [])

/-- The generic-update message: empty (no notification) when nothing
notification-worthy changed. -/
def updateGenericMessage (old : Task) (p : TaskPatch) (updated : Task) : String :=
  let cf := updateChangedFields old p
  if cf.isEmpty then ""
  else "The task \"" ++ updated.title ++ "\" has been updated: " ++
    String.intercalate ", " cf ++ "."

/-- The notification message of PUT /api/tasks/:id (tasks router
322-333): a reassignment message when the patch carries a different
assignee, otherwise the generic message over the changed fields. -/
def updateNotificationMessage (old : Task) (p : TaskPatch) (updated : Task) :
    String :=
  match p.assignedTo with
  | some newA =>
    if old.assignedTo ≠ newA then
      "You have been assigned a new task: \"" ++ updated.title ++ "\"."
    else updateGenericMessage old p updated
  | none => updateGenericMessage old p updated

/-- The notification PUT /api/tasks/:id sends to the (post-update)
assignee when a message was produced. -/
def updateTaskNotifDoc (updated : Task) (msg : String) : Notification :=
  { user := updated.assignedTo, type := "TASK_UPDATED", message := msg,
    link := taskLink updated.id, isRead := false, relatedModel := "Task",
    relatedId := updated.id }

/-- The PUT /api/tasks/:id handler (tasks router 269-369): body
validation, task lookup, `canAccessTask`, reference checks on a changed
assignee/customer, `findByIdAndUpdate`, then — still awaited inside the
route's try block — the update/reassignment notification when the new
assignee is not the actor and a message was produced, then the detached
activity log when any field changed, then the 200 response.  A throw
from `createNotification` lands in the route's catch and produces a 500
response, after the update has already been persisted. -/
def updateTaskRoute (notifDbFails actDbFails : Bool) (users : List Principal)
    (customers : List Customer) (actor : Principal) (taskId : Nat)
    (p : TaskPatch) (st : Store) : Nat × Store :=
  if !validUpdateTaskBody p then (400, st)
  else
    match st.tasks.find? (fun t => t.id = taskId) with
    | none => (404, st)
    | some task =>
      if !canAccessTask actor task then (403, st)
      else if !assignedRefOk users p.assignedTo then (400, st)
      else if !customerRefOk customers p.customer then (400, st)
      else
        let updated := applyPatch task p
        let st1 : Store :=
          { st with tasks := st.tasks.map (fun t => if t.id = taskId then updated else t) }
        let msg := updateNotificationMessage task p updated
        let acts := fun (ns : List Notification) =>
          if (patchKeys p).isEmpty then (200, { st1 with notifications := ns })
          else (200, { st1 with
                       notifications := ns,
                       activities := logActivity actDbFails
                         { user := actor.id, action := "UPDATE_TASK",
                           entity := "Task", entityId := updated.id }
                         st1.activities })
        if updated.assignedTo ≠ actor.id ∧ msg ≠ "" then
          match createNotification notifDbFails (updateTaskNotifDoc updated msg)
              st1.notifications with
          | Except.error _ => (500, st1)
          | Except.ok ns => acts ns
        else acts st1.notifications

/-- The query-string filters of GET /api/tasks. -/
structure ListTasksParams where
  page : Nat
  limit : Nat
  status : Option String
  priority : Option String
  assignedTo : Option Nat
  customer : Option Nat
  search : Option String
deriving Repr

/-- The value held by `query.$or` after the GET /api/tasks handler has
built its filter object. -/
inductive OrFilter where
  | noFilter
  | searchOr (s : String)
  | roleOr (uid : Nat)
deriving DecidableEq, Repr

/-- `query.$or` as assigned by the handler (tasks router 56-71): the
search clauses are assigned first and then overwritten by the role
clauses whenever the principal's role is `user`. -/
def taskListOr (search : Option String) (u : Principal) : OrFilter :=
  let afterSearch :=
    match search with
    | some s => OrFilter.searchOr s
    | none => OrFilter.noFilter
  if u.role = "user" then OrFilter.roleOr u.id else afterSearch

/-- Matching a task against the `$or` clause.  `rx pat field` abstracts
the case-insensitive regex test `{$regex: pat, $options: 'i'}`. -/
def orMatches (rx : String → String → Bool) : OrFilter → Task → Bool
  | OrFilter.noFilter, _ => true
  | OrFilter.searchOr s, t => rx s t.title || rx s t.description || rx s t.category
  | OrFilter.roleOr uid, t => decide (t.assignedTo = uid) || decide (t.createdBy = uid)

/-- Matching a task against the full filter object of GET /api/tasks:
the optional status/priority/assignedTo/customer equality conjuncts and
the `$or` clause. -/
def taskMatchesListQuery (rx : String → String → Bool) (p : ListTasksParams)
    (u : Principal) (t : Task) : Bool :=
  (match p.status with
   | some s => decide (t.status = s)
   | none => true) &&
  (match p.priority with
   | some s => decide (t.priority = s)
   | none => true) &&
  (match p.assignedTo with
   | some a => decide (t.assignedTo = a)
   | none => true) &&
  (match p.customer with
   | some c => decide (t.customer = some c)
   | none => true) &&
  orMatches rx (taskListOr p.search u) t

/-- GET /api/tasks: filter, then skip `(page-1)*limit`, then take
`limit`.  The sort step only permutes the filtered list and cannot add
members, so it is omitted. -/
def listTasksRoute (rx : String → String → Bool) (p : ListTasksParams)
    (u : Principal) (tasks : List Task) : List Task :=
  ((tasks.filter (taskMatchesListQuery rx p u)).drop ((p.page - 1) * p.limit)).take
    p.limit

/-- Per-task scoping of GET /api/search (search router 388-396): the
abstract `$text` predicate `tm`, intersected for user-role principals
with the created-or-assigned `$or`. -/
def taskSearchFilter (tm : Task → Bool) (u : Principal) (t : Task) : Bool :=
  if u.role = "admin" ∨ u.role = "manager" then tm t
  else tm t && (decide (t.createdBy = u.id) || decide (t.assignedTo = u.id))

/-- Per-customer scoping of GET /api/search (search router 410-412):
user-role principals additionally require `createdBy: user._id`. -/
def customerSearchFilter (cm : Customer → Bool) (u : Principal) (c : Customer) :
    Bool :=
  if u.role = "admin" ∨ u.role = "manager" then cm c
  else cm c && decide (c.createdBy = u.id)

/-- Per-call scoping of GET /api/search (search router 426-428):
user-role principals additionally require `user: user._id`. -/
def callSearchFilter (km : Call → Bool) (u : Principal) (c : Call) : Bool :=
  if u.role = "admin" ∨ u.role = "manager" then km c
  else km c && decide (c.user = u.id)

/-- Task results of GET /api/search: scoped filter, relevance sort (a
permutation, omitted), and `limit(10)`. -/
def searchTasksRoute (tm : Task → Bool) (u : Principal) (store : List Task) :
    List Task :=
  (store.filter (taskSearchFilter tm u)).take 10

/-- Customer results of GET /api/search. -/
def searchCustomersRoute (cm : Customer → Bool) (u : Principal)
    (store : List Customer) : List Customer :=
  (store.filter (customerSearchFilter cm u)).take 10

/-- Call results of GET /api/search. -/
def searchCallsRoute (km : Call → Bool) (u : Principal) (store : List Call) :
    List Call :=
  (store.filter (callSearchFilter km u)).take 10

/-- The `updateMany({user, isRead: false}, {isRead: true})` of
PATCH /api/notifications/read-all (notifications router 75-84). -/
def updateManyRead (uid : Nat) (store : List Notification) : List Notification :=
  store.map (fun n =>
    if n.user = uid ∧ n.isRead = false then { n with isRead := true } else n)

/-- PATCH /api/notifications/read-all: runs the update and always
answers 200 with a success message. -/
def markAllReadRoute (uid : Nat) (store : List Notification) :
    Nat × List Notification :=
  (200, updateManyRead uid store)

/-- A JavaScript object as seen by the dynamic field accesses inside
`canAccessTask`: a property read yields `some` when the property is
present and `none` (undefined) when it is absent. -/
structure JsObject where
  truthy : Bool
  role : Option String
  uid : Option Nat
  createdBy : Option Nat
  assignedTo : Option Nat
deriving DecidableEq, Repr

/-- A JavaScript evaluation that either produces a value or throws a
TypeError (calling `.toString()` on undefined). -/
inductive JsResult (α : Type) where
  | value : α → JsResult α
  | typeError : JsResult α
deriving DecidableEq, Repr

/-- `canAccessTask(user, task)` under JavaScript semantics on arbitrary
objects (middleware/auth.ts 63-76): falsy user yields false,
admin/manager role yields true, otherwise
`task.createdBy.toString() === user._id.toString()` and the assignee
comparison — each throwing when the accessed property is undefined. -/
def canAccessTaskDyn (user task : JsObject) : JsResult Bool :=
  if !user.truthy then JsResult.value false
  else if user.role = some "admin" ∨ user.role = some "manager" then
    JsResult.value true
  else
    match task.createdBy, user.uid, task.assignedTo with
    | some cb, some uidv, some asg =>
      JsResult.value (decide (cb = uidv) || decide (asg = uidv))
    | _, _, _ => JsResult.typeError

/-- Outcome of running one route-level middleware in Express. -/
inductive MwOutcome where
  | nextCalled
  | hang
  | errored
deriving DecidableEq, Repr

/-- `canAccessTask` installed directly as middleware (tasks router 578):
Express invokes it as `fn(req, res, next)`; the two-parameter function
binds `user := req` and `task := res` and ignores `next`.  If the body
throws, Express hands the error to the error handler (500); if it
returns a boolean, nothing calls `next()` or writes a response, so the
request hangs. -/
def canAccessTaskAsMiddleware (req res : JsObject) : MwOutcome :=
  match canAccessTaskDyn req res with
  | JsResult.typeError => MwOutcome.errored
  | JsResult.value _ => MwOutcome.hang

/-- The Express Request object for an authenticated principal: the
principal is stored in `req.user`, so the request object itself has no
`role`, `_id`, `createdBy` or `assignedTo` properties, whoever is
authenticated. -/
def expressRequest (_u : Principal) : JsObject :=
  { truthy := true, role := none, uid := none, createdBy := none, assignedTo := none }

/-- The Express Response object: it has none of those properties
either. -/
def expressResponse : JsObject :=
  { truthy := true, role := none, uid := none, createdBy := none, assignedTo := none }

/-- The first route-level middleware of PATCH /api/tasks/:id/status is
`canAccessTask` itself; the validator chain and handler after it run
only if it calls `next()`. -/
def patchStatusPipeline (u : Principal) : MwOutcome :=
  canAccessTaskAsMiddleware (expressRequest u) expressResponse

/-- The reminder query filter (jobs/reminders.ts 18-25): dueDate within
[now, tomorrow) and `status: {$nin: ['Completed', 'Archived']}`.  The
clause `isDeleted: false` targets a path the Task schema does not have;
under schema-strict query casting it is dropped (and were it kept, no
document could ever match it, which would only shrink this result
further). -/
def reminderQueryMatch (now tomorrow : Nat) (t : Task) : Bool :=
  decide (now ≤ t.dueDate) && decide (t.dueDate < tomorrow) &&
  !(decide (t.status ∈ ["Completed", "Archived"]))

/-- The reminder message. -/
def taskReminderMessage (title : String) : String :=
  "Reminder: The task \"" ++ title ++ "\" is due soon."

/-- The reminder notification document, with the `TASK_REMINDER` type
the job requests. -/
def mkReminderNotification (t : Task) : Notification :=
  { user := t.assignedTo, type := "TASK_REMINDER",
    message := taskReminderMessage t.title, link := taskLink t.id,
    isRead := false, relatedModel := "Task", relatedId := t.id }

/-- The job's notification loop (jobs/reminders.ts 34-47): tasks whose
populated assignee is missing are skipped; the first rethrown
`createNotification` failure aborts the loop and is swallowed by the
job-level catch, keeping whatever was persisted before it. -/
def reminderLoop (dbFails : Bool) (users : List Principal) :
    List Task → List Notification → List Notification
  | [], store => store
  | t :: rest, store =>
    if (users.find? (fun u => u.id = t.assignedTo)).isSome then
      match createNotification dbFails (mkReminderNotification t) store with
      | Except.error _ => store
      | Except.ok s => reminderLoop dbFails users rest s
    else reminderLoop dbFails users rest store

/-- `sendTaskReminders` (jobs/reminders.ts 10-53): query the due-soon
tasks, then send one reminder notification per task to its assignee. -/
def sendTaskReminders (dbFails : Bool) (now tomorrow : Nat)
    (users : List Principal) (tasks : List Task)
    (store : List Notification) : List Notification :=
  reminderLoop dbFails users (tasks.filter (reminderQueryMatch now tomorrow)) store

/-- A demonstration admin principal. -/
def demoAdmin : Principal :=
  { id := 1, name := "ada", role := "admin", isActive := true }

/-- A demonstration user-role principal. -/
def demoUser : Principal :=
  { id := 7, name := "uma", role := "user", isActive := true }

/-- A demonstration manager principal. -/
def demoManager : Principal :=
  { id := 2, name := "mona", role := "manager", isActive := true }

/-- A demonstration active assignee. -/
def demoAssignee : Principal :=
  { id := 3, name := "alex", role := "user", isActive := true }

/-- A valid createTask body assigning the task to the assignee. -/
def demoTaskInput : TaskInput :=
  { title := "Ship", description := "Ship the feature", category := "dev",
    priority := "high", dueDate := 100, assignedTo := 3, customer := none }

/-- A persisted task created by the manager and assigned to the assignee. -/
def demoExistingTask : Task :=
  { id := 5, title := "Fix", description := "Fix the bug", category := "dev",
    priority := "low", status := "todo", dueDate := 90, assignedTo := 3,
    customer := none, comments := [], createdBy := 2 }

/-- A store holding the demonstration task. -/
def demoStore : Store :=
  { tasks := [demoExistingTask], notifications := [], activities := [] }

/-- With `dbFails = true` any attempted notification write throws, so
the loop fails on its first recipient and carries the untouched store. -/
theorem commentNotifLoop_fail (authorName : String) (t : Task) (uid : Nat)
    (rest : List Nat) (store : List Notification) :
    commentNotifLoop true authorName t (uid :: rest) store = Except.error store := by
  simp [commentNotifLoop, createNotification]

/-- With a healthy store every comment notification is valid
(COMMENT_ADDED is in the schema enum) and the loop persists one
notification per recipient, in order. -/
theorem commentNotifLoop_ok (authorName : String) (t : Task) (l : List Nat)
    (store : List Notification) :
    commentNotifLoop false authorName t l store =
      Except.ok (store ++ l.map (fun uid => mkCommentNotification uid authorName t)) := by
  induction l generalizing store with
  | nil => simp [commentNotifLoop]
  | cons uid rest ih =>
    have hv : notificationValid (mkCommentNotification uid authorName t) = true := rfl
    simp [commentNotifLoop, createNotification, hv, ih]

/-- The patch a demonstration update submits: only the status changes. -/
def demoStatusPatch : TaskPatch :=
  { title := none, description := none, category := none, priority := none,
    status := some "completed", dueDate := none, assignedTo := none,
    customer := none }

/-- A contact submitted without the primary flag. -/
def demoContactA : Contact :=
  { name := "Asha", email := "asha@acme.test", phone := "911234", designation := "CEO",
    isPrimary := false }

/-- A contact submitted with the primary flag. -/
def demoContactB : Contact :=
  { name := "Bela", email := "bela@acme.test", phone := "911235", designation := "CTO",
    isPrimary := true }

/-- A second contact submitted with the primary flag. -/
def demoContactC : Contact :=
  { name := "Card", email := "card@acme.test", phone := "911236", designation := "COO",
    isPrimary := true }

/-- A customer submitted with two primary contacts behind a non-primary
first contact. -/
def demoCustomerMultiPrimary : Customer :=
  { id := 30, companyName := "Acme", companyType := "IT",
    contacts := [demoContactA, demoContactB, demoContactC], notes := "",
    isActive := true, createdBy := 2 }

/-- **C3.** The exactly-one-primary invariant fails on the code.  On
create, the pre-save hook clears the primary flag of every contact after
the head, so the submitted list (non-primary, primary, primary) is
persisted with zero primary contacts.  On update, `findByIdAndUpdate`
skips the hook entirely and a two-primary list is stored with two. -/
theorem c3_primary_contact_invariant_fails :
    ((createCustomerSave demoCustomerMultiPrimary).toOption.map
        (fun c => countPrimary c.contacts)) = some 0 ∧
    countPrimary (updateCustomerApply demoCustomerMultiPrimary
        (some [demoContactB, demoContactC])).contacts = 2 := by
  constructor
  · rfl
  · rfl

/-- **C1.** The role check guarding createTask, updateTask and
deleteTask rejects every principal as Forbidden, whatever their role:
the call site passes the array `['admin', 'manager']` as one rest
argument, and `includes` never finds a string among array elements. -/
theorem c1_tasks_role_check_rejects_every_principal :
    ∀ u : Principal, authorize tasksMutationRoles (some u) = AuthzResult.forbidden := by
  intro u
  simp [authorize, tasksMutationRoles]

/-- **C4 counterexample.** A principal with role `user` is admitted by
the createCustomer middleware chain: customer creation is not rejected
as Forbidden. -/
theorem c4_user_can_create_customer :
    createCustomerGuard (some demoUser) = AuthzResult.next ∧
    demoUser.role = "user" := by
  constructor
  · rfl
  · rfl

/-- **C4 (amended).** For a principal with role `user`, customer update
and delete are rejected as Forbidden, but customer create carries no
role check and admits the principal. -/
theorem c4_customer_write_guards (u : Principal) (h : u.role = "user") :
    updateCustomerGuard (some u) = AuthzResult.forbidden ∧
    deleteCustomerGuard (some u) = AuthzResult.forbidden ∧
    createCustomerGuard (some u) = AuthzResult.next := by
  refine ⟨?_, ?_, rfl⟩ <;>
    simp [updateCustomerGuard, deleteCustomerGuard, authorize, customersWriteRoles, h]

/-- Witness for C4 (amended) at the demonstration user. -/
theorem c4_customer_write_guards_witness :
    demoUser.role = "user" ∧
    (updateCustomerGuard (some demoUser) = AuthzResult.forbidden ∧
     deleteCustomerGuard (some demoUser) = AuthzResult.forbidden ∧
     createCustomerGuard (some demoUser) = AuthzResult.next) :=
  ⟨rfl, c4_customer_write_guards demoUser rfl⟩

/-- **C2 counterexample.** A failed notification write after a
committed createTask is propagated to the caller: at this concrete
input the route answers 500 instead of 201, even though the created
task is in the store. -/
theorem c2_notification_failure_reaches_caller :
    (createTaskRoute true false [demoManager, demoAssignee] [] 10 demoManager
        demoTaskInput demoStore).1 = 500 ∧
    ((createTaskRoute true false [demoManager, demoAssignee] [] 10 demoManager
        demoTaskInput demoStore).2).tasks =
      demoStore.tasks ++ [newTaskDoc 10 demoManager demoTaskInput] := by
  constructor
  · rfl
  · rfl

/-- **C2 (amended).** After a committed createTask, updateTask or
addComment, a failure to persist the activity record is caught inside
`logActivity` and never surfaces (the route still answers success), but
whenever the mutation attempts a notification write, a failure to
persist it is rethrown by `createNotification`, reaches the route's
catch, and turns the response into a 500 — while the committed mutation
stays in the store. -/
theorem c2_side_effect_failure_handling
    (actDbFails : Bool) (users : List Principal) (customers : List Customer)
    (freshId : Nat) (actor au : Principal) (i : TaskInput) (st : Store)
    (uactor : Principal) (updTaskId : Nat) (p : TaskPatch) (utask : Task)
    (now taskId : Nat) (author : Principal) (text : String) (task : Task)
    (hbody : validCreateTaskBody i = true)
    (hfind : users.find? (fun u => u.id = i.assignedTo) = some au)
    (hactive : au.isActive = true)
    (hcust : customerRefOk customers i.customer = true)
    (hneq : actor.id ≠ i.assignedTo)
    (hubody : validUpdateTaskBody p = true)
    (hufind : st.tasks.find? (fun t => t.id = updTaskId) = some utask)
    (huacc : canAccessTask uactor utask = true)
    (hua : assignedRefOk users p.assignedTo = true)
    (huc : customerRefOk customers p.customer = true)
    (huattempt : (applyPatch utask p).assignedTo ≠ uactor.id ∧
      updateNotificationMessage utask p (applyPatch utask p) ≠ "")
    (hfindT : st.tasks.find? (fun t => t.id = taskId) = some task)
    (hacc : canAccessTask author task = true)
    (hlen : (decide (1 ≤ text.length) && decide (text.length ≤ 500)) = true)
    (hnotify : usersToNotify task.createdBy task.assignedTo author.id ≠ []) :
    createTaskRoute true actDbFails users customers freshId actor i st =
      (500, { st with tasks := st.tasks ++ [newTaskDoc freshId actor i] }) ∧
    (createTaskRoute false true users customers freshId actor i st).1 = 201 ∧
    updateTaskRoute true actDbFails users customers uactor updTaskId p st =
      (500, { st with tasks := st.tasks.map (fun t =>
          if t.id = updTaskId then applyPatch utask p else t) }) ∧
    (updateTaskRoute false true users customers uactor updTaskId p st).1 = 200 ∧
    addCommentRoute true actDbFails now author taskId text st =
      (500, { st with tasks := st.tasks.map (fun t =>
          if t.id = taskId then withComment task author.id now text else t) }) ∧
    (addCommentRoute false true now author taskId text st).1 = 200 := by
  have hvNew : notificationValid (newTaskNotifDoc freshId actor i) = true := rfl
  have hvUpd : notificationValid (updateTaskNotifDoc (applyPatch utask p)
      (updateNotificationMessage utask p (applyPatch utask p))) = true := rfl
  obtain ⟨ha1, ha2⟩ := huattempt
  refine ⟨?_, ?_, ?_, ?_, ?_, ?_⟩
  · simp [createTaskRoute, hbody, hfind, hactive, hcust, hneq, createNotification]
  · simp [createTaskRoute, hbody, hfind, hactive, hcust, hneq, createNotification, hvNew]
  · simp [updateTaskRoute, hubody, hufind, huacc, hua, huc, ha1, ha2,
      createNotification]
  · simp [updateTaskRoute, hubody, hufind, huacc, hua, huc, ha1, ha2,
      createNotification, hvUpd, apply_ite]
  · obtain ⟨hd, tl, hcons⟩ := List.exists_cons_of_ne_nil hnotify
    simp [addCommentRoute, hlen, hfindT, hacc, withComment, hcons,
      commentNotifLoop_fail]
  · simp [addCommentRoute, hlen, hfindT, hacc, withComment, commentNotifLoop_ok]

/-- Witness for C2 (amended) at concrete inputs: a manager creates a
task for someone else, updates a task's status, and comments on a task
they created (so only the assignee is to be notified). -/
theorem c2_side_effect_failure_handling_witness :
    (createTaskRoute true false [demoManager, demoAssignee] [] 10 demoManager
        demoTaskInput demoStore).1 = 500 ∧
    (createTaskRoute false true [demoManager, demoAssignee] [] 10 demoManager
        demoTaskInput demoStore).1 = 201 ∧
    (updateTaskRoute true false [demoManager, demoAssignee] [] demoManager 5
        demoStatusPatch demoStore).1 = 500 ∧
    (updateTaskRoute false true [demoManager, demoAssignee] [] demoManager 5
        demoStatusPatch demoStore).1 = 200 ∧
    (addCommentRoute true false 77 demoManager 5 "Looks good" demoStore).1 = 500 ∧
    (addCommentRoute false true 77 demoManager 5 "Looks good" demoStore).1 = 200 := by
  have h := c2_side_effect_failure_handling false [demoManager, demoAssignee] [] 10
    demoManager demoAssignee demoTaskInput demoStore demoManager 5 demoStatusPatch
    demoExistingTask 77 5 demoManager "Looks good" demoExistingTask
    (by decide) (by decide) (by decide) (by decide) (by decide)
    (by decide) (by decide) (by decide) (by decide) (by decide) (by decide)
    (by decide) (by decide) (by decide) (by decide)
  exact ⟨by rw [h.1], h.2.1, by rw [h.2.2.1], h.2.2.2.1, by rw [h.2.2.2.2.1],
    h.2.2.2.2.2⟩

/-- A task created by and assigned to principals other than the
demonstration user. -/
def demoForeignTask : Task :=
  { id := 11, title := "Audit", description := "Audit the logs", category := "ops",
    priority := "medium", status := "todo", dueDate := 120, assignedTo := 9,
    customer := none, comments := [], createdBy := 8 }

/-- A task created by the demonstration user. -/
def demoOwnTask : Task :=
  { id := 12, title := "Prep", description := "Prep the demo", category := "ops",
    priority := "medium", status := "todo", dueDate := 130, assignedTo := 9,
    customer := none, comments := [], createdBy := 7 }

/-- Query parameters exercising the search filter. -/
def demoParams : ListTasksParams :=
  { page := 1, limit := 10, status := none, priority := none, assignedTo := none,
    customer := none, search := some "audit" }

/-- **C7.** For a user-role principal, whatever the filters and whatever
the store, every task GET /api/tasks returns has the principal as
creator or assignee: the role `$or` overwrites any search `$or`, so the
final query always carries the created-or-assigned disjunction. -/
theorem c7_listTasks_only_own_tasks (rx : String → String → Bool)
    (p : ListTasksParams) (u : Principal) (tasks : List Task)
    (h : u.role = "user") :
    (listTasksRoute rx p u tasks).all
      (fun t => decide (t.createdBy = u.id) || decide (t.assignedTo = u.id)) = true := by
  rw [List.all_eq_true]
  intro t ht
  have h1 : t ∈ tasks.filter (taskMatchesListQuery rx p u) :=
    List.drop_subset _ _ (List.take_subset _ _ ht)
  have h2 := (List.mem_filter.mp h1).2
  simp [taskMatchesListQuery, taskListOr, orMatches, h] at h2
  simp only [Bool.or_eq_true, decide_eq_true_eq]
  tauto

/-- Witness for C7 at a concrete store holding a foreign and an owned
task. -/
theorem c7_listTasks_only_own_tasks_witness :
    demoUser.role = "user" ∧
    (listTasksRoute (fun _ _ => true) demoParams demoUser
        [demoForeignTask, demoOwnTask]).all
      (fun t => decide (t.createdBy = demoUser.id) ||
        decide (t.assignedTo = demoUser.id)) = true :=
  ⟨rfl, c7_listTasks_only_own_tasks (fun _ _ => true) demoParams demoUser
    [demoForeignTask, demoOwnTask] rfl⟩

/-- A customer created by a principal other than the demonstration
user. -/
def demoForeignCustomer : Customer :=
  { id := 40, companyName := "TechCorp Solutions", companyType := "IT",
    contacts := [demoContactB], notes := "", isActive := true, createdBy := 2 }

/-- A call logged by the demonstration user. -/
def demoOwnCall : Call :=
  { id := 50, customer := 40, user := 7, callType := "outbound",
    summary := "Quarterly check-in" }

/-- **C5 counterexample.** For a user-role principal, a text-matching
customer created by someone else is excluded from the customers result
set: the search route adds `createdBy: user._id` for customers, so the
result set is not drawn from all Customers. -/
theorem c5_customer_search_is_restricted :
    searchCustomersRoute (fun _ => true) demoUser [demoForeignCustomer] = [] ∧
    demoForeignCustomer.createdBy ≠ demoUser.id := by
  constructor
  · rfl
  · decide

/-- **C5 (amended).** For a user-role principal the search route scopes
each entity type: tasks to created-or-assigned, calls to the
principal's own, and customers to those the principal created. -/
theorem c5_user_search_scoping (tm : Task → Bool) (cm : Customer → Bool)
    (km : Call → Bool) (u : Principal) (h : u.role = "user")
    (tstore : List Task) (cstore : List Customer) (kstore : List Call) :
    searchTasksRoute tm u tstore =
      (tstore.filter (fun t => tm t && (decide (t.createdBy = u.id) ||
        decide (t.assignedTo = u.id)))).take 10 ∧
    searchCallsRoute km u kstore =
      (kstore.filter (fun c => km c && decide (c.user = u.id))).take 10 ∧
    searchCustomersRoute cm u cstore =
      (cstore.filter (fun c => cm c && decide (c.createdBy = u.id))).take 10 := by
  have hno : ¬(u.role = "admin" ∨ u.role = "manager") := by
    rw [h]; decide
  refine ⟨?_, ?_, ?_⟩
  · have hf : taskSearchFilter tm u = fun t =>
        tm t && (decide (t.createdBy = u.id) || decide (t.assignedTo = u.id)) := by
      funext t
      simp [taskSearchFilter, hno]
    rw [searchTasksRoute, hf]
  · have hf : callSearchFilter km u = fun c => km c && decide (c.user = u.id) := by
      funext c
      simp [callSearchFilter, hno]
    rw [searchCallsRoute, hf]
  · have hf : customerSearchFilter cm u = fun c =>
        cm c && decide (c.createdBy = u.id) := by
      funext c
      simp [customerSearchFilter, hno]
    rw [searchCustomersRoute, hf]

/-- Witness for C5 (amended) at concrete one-element stores. -/
theorem c5_user_search_scoping_witness :
    demoUser.role = "user" ∧
    (searchTasksRoute (fun _ => true) demoUser [demoForeignTask] =
      ([demoForeignTask].filter (fun t => true &&
        (decide (t.createdBy = demoUser.id) ||
         decide (t.assignedTo = demoUser.id)))).take 10 ∧
    searchCallsRoute (fun _ => true) demoUser [demoOwnCall] =
      ([demoOwnCall].filter (fun c => true &&
        decide (c.user = demoUser.id))).take 10 ∧
    searchCustomersRoute (fun _ => true) demoUser [demoForeignCustomer] =
      ([demoForeignCustomer].filter (fun c => true &&
        decide (c.createdBy = demoUser.id))).take 10) :=
  ⟨rfl, c5_user_search_scoping (fun _ => true) (fun _ => true) (fun _ => true)
    demoUser rfl [demoForeignTask] [demoForeignCustomer] [demoOwnCall]⟩

/-- A completed task due inside the reminder window. -/
def demoCompletedDueTask : Task :=
  { id := 60, title := "Done", description := "Already finished", category := "dev",
    priority := "low", status := "completed", dueDate := 50, assignedTo := 3,
    customer := none, comments := [], createdBy := 2 }

/-- **C6.** The reminder job never persists any reminder notification:
`TASK_REMINDER` is missing from the Notification schema's type enum, so
every attempted save fails validation, the rethrown error is swallowed
by the job's catch, and the store is left unchanged — for every clock,
every user set, every task set and every store.  Moreover the query
does not exclude completed tasks: its `$nin` list compares against
`Completed`/`Archived`, which never match the lowercase status enum. -/
theorem c6_reminder_job_persists_nothing :
    (∀ (dbFails : Bool) (now tomorrow : Nat) (users : List Principal)
        (tasks : List Task) (store : List Notification),
      sendTaskReminders dbFails now tomorrow users tasks store = store) ∧
    reminderQueryMatch 0 100 demoCompletedDueTask = true := by
  constructor
  · intro dbFails now tomorrow users tasks store
    unfold sendTaskReminders
    generalize tasks.filter (reminderQueryMatch now tomorrow) = l
    induction l generalizing store with
    | nil => rfl
    | cons t rest ih =>
      have hv : notificationValid (mkReminderNotification t) = false := rfl
      simp [reminderLoop, createNotification, hv, ih]
  · rfl

/-- **C8.** Adding a comment succeeds and notifies exactly the task's
creator and current assignee, deduplicated and excluding the comment's
author: the recipients appended to the notification store are
`usersToNotify`, whose underlying set is {creator, assignee} minus the
author. -/
theorem c8_comment_notifies_creator_and_assignee_minus_author (now : Nat)
    (author : Principal) (taskId : Nat) (text : String) (st : Store) (task : Task)
    (hfindT : st.tasks.find? (fun t => t.id = taskId) = some task)
    (hacc : canAccessTask author task = true)
    (hlen : (decide (1 ≤ text.length) && decide (text.length ≤ 500)) = true) :
    (addCommentRoute false false now author taskId text st).1 = 200 ∧
    ((addCommentRoute false false now author taskId text st).2).notifications.map
        (fun n => n.user) =
      st.notifications.map (fun n => n.user) ++
        usersToNotify task.createdBy task.assignedTo author.id ∧
    (usersToNotify task.createdBy task.assignedTo author.id).toFinset =
      ({task.createdBy, task.assignedTo} : Finset Nat) \ {author.id} := by
  refine ⟨?_, ?_, ?_⟩
  · simp [addCommentRoute, hlen, hfindT, hacc, withComment, commentNotifLoop_ok]
  · simp [addCommentRoute, hlen, hfindT, hacc, withComment, commentNotifLoop_ok,
      mkCommentNotification, Function.comp_def]
  · ext x
    simp [usersToNotify]
    split_ifs <;> simp_all <;> omega

/-- Witness for C8: the assignee comments on the demonstration task and
only the creator is notified. -/
theorem c8_comment_notifies_witness :
    (addCommentRoute false false 77 demoAssignee 5 "Nice" demoStore).1 = 200 ∧
    ((addCommentRoute false false 77 demoAssignee 5 "Nice" demoStore).2).notifications.map
        (fun n => n.user) =
      demoStore.notifications.map (fun n => n.user) ++
        usersToNotify demoExistingTask.createdBy demoExistingTask.assignedTo
          demoAssignee.id ∧
    (usersToNotify demoExistingTask.createdBy demoExistingTask.assignedTo
        demoAssignee.id).toFinset =
      ({demoExistingTask.createdBy, demoExistingTask.assignedTo} : Finset Nat) \
        {demoAssignee.id} :=
  c8_comment_notifies_creator_and_assignee_minus_author 77 demoAssignee 5 "Nice"
    demoStore demoExistingTask (by decide) (by decide) (by decide)

/-- **C9.** markAllRead is idempotent: after one call every notification
of the calling principal is read, a second call returns the store
unchanged, and both calls answer 200. -/
theorem c9_markAllRead_idempotent (uid : Nat) (store : List Notification) :
    (∀ n ∈ (markAllReadRoute uid store).2, n.user = uid → n.isRead = true) ∧
    markAllReadRoute uid ((markAllReadRoute uid store).2) =
      (200, (markAllReadRoute uid store).2) ∧
    (markAllReadRoute uid store).1 = 200 := by
  refine ⟨?_, ?_, rfl⟩
  · intro n hn hu
    simp [markAllReadRoute, updateManyRead] at hn
    obtain ⟨m, hm, rfl⟩ := hn
    by_cases h : m.user = uid ∧ m.isRead = false
    · simp [h]
    · simp only [if_neg h]
      simp only [if_neg h] at hu
      cases hr : m.isRead with
      | true => rfl
      | false => exact absurd ⟨hu, hr⟩ h
  · simp only [markAllReadRoute, Prod.mk.injEq, true_and]
    unfold updateManyRead
    rw [List.map_map]
    apply List.map_congr_left
    intro m _
    by_cases h : m.user = uid ∧ m.isRead = false
    · simp [h]
    · simp [Function.comp, if_neg h]

/-- **C10.** The status-update route can never reach its handler:
`canAccessTask`, installed as middleware, receives (req, res, next),
finds no admin/manager role on the request object, dereferences the
undefined `res.createdBy` and throws, so for every principal the
pipeline ends in the error handler and `next()` is never called. -/
theorem c10_patch_status_never_succeeds :
    ∀ u : Principal, patchStatusPipeline u = MwOutcome.errored := by
  intro u
  rfl

/-- On well-formed arguments the dynamic evaluation agrees with the
typed `canAccessTask` predicate: the middleware failure is purely an
artifact of the wrong installation, not of the predicate itself. -/
theorem canAccessTaskDyn_agrees (u : Principal) (t : Task) :
    canAccessTaskDyn
      { truthy := true, role := some u.role, uid := some u.id,
        createdBy := none, assignedTo := none }
      { truthy := true, role := none, uid := none,
        createdBy := some t.createdBy, assignedTo := some t.assignedTo } =
      JsResult.value (canAccessTask u t) := by
  by_cases h : u.role = "admin" ∨ u.role = "manager"
  · simp [canAccessTaskDyn, canAccessTask, h]
  · by_cases h1 : t.createdBy = u.id <;> by_cases h2 : t.assignedTo = u.id <;>
      simp [canAccessTaskDyn, canAccessTask, h, h1, h2]

end BetterTasks
